import Mathlib

/-!
Verification development for the IntelliQuery document question-answering
application (`src/app.py`).  The Python source is shallowly embedded:

* Python `str` values are `PyStr := List Nat` — sequences of Unicode code
  points (Python strings may contain lone surrogates, which Lean `Char`
  cannot represent, so raw code points are used).
* External services and libraries (FAISS, the embedding model, Whisper,
  ffmpeg, Cohere, the QA chain, `RecursiveCharacterTextSplitter`, file
  parsers, the OS filesystem outside the index directory) are oracle
  functions gathered in an `Env` record; the repository's own control flow
  and data handling are translated function by function.
* Streamlit session state and the on-disk FAISS index directory are an
  explicit `World` record threaded through the stateful functions.
* Python exceptions in oracle calls are `Except` results; `try/except`
  blocks in the source become `match`es on those results.
-/

namespace IntelliQuery

/-- Python strings as sequences of Unicode code points. -/
abbrev PyStr := List Nat

/-- Inject a Lean string literal as a Python string. -/
def pyOfString (s : String) : PyStr := s.toList.map Char.toNat

/-- Python `str.isspace` on a single code point (the Unicode whitespace
    class used by `str.split()` and `str.strip()`). -/
def py_isspace (c : Nat) : Bool :=
  c = 0x20 || (0x9 ≤ c && c ≤ 0xD) || (0x1C ≤ c && c ≤ 0x1F) || c = 0x85 ||
  c = 0xA0 || c = 0x1680 || (0x2000 ≤ c && c ≤ 0x200A) || c = 0x2028 ||
  c = 0x2029 || c = 0x202F || c = 0x205F || c = 0x3000

/-- Python `str.strip()`: remove leading and trailing whitespace. -/
def py_strip (s : PyStr) : PyStr :=
  ((s.dropWhile py_isspace).reverse.dropWhile py_isspace).reverse

/-- Python `str.split()` with no argument: split on whitespace runs,
    discarding empty pieces. -/
def py_split_ws (s : PyStr) : List PyStr :=
  (s.splitOnP py_isspace).filter (fun t => t ≠ [])

/-- `clean_text` (app.py lines 339–353), step 1:
    `text.encode("utf-8", "replace").decode("utf-8")` — each lone
    surrogate code point (the only well-formed-`str` content that cannot
    be encoded) is replaced by `?` (0x3F). -/
def utf8_replace (s : PyStr) : PyStr :=
  s.map (fun c => if 0xD800 ≤ c && c ≤ 0xDFFF then 0x3F else c)

/-- `clean_text`, step 2: `re.sub(r'[\U00010000-\U0010ffff]', '', text)` —
    remove every code point at or above U+10000. -/
def remove_astral (s : PyStr) : PyStr := s.filter (fun c => c < 0x10000)

/-- `clean_text` (app.py lines 339–353): falsy (empty) input yields `""`;
    otherwise replace unencodable surrogates, drop astral-plane code
    points, and strip surrounding whitespace. -/
def clean_text (text : PyStr) : PyStr :=
  if text = [] then [] else py_strip (remove_astral (utf8_replace text))

/-- The chunk-producing loop of `get_late_chunked_text`
    (app.py lines 406–409):

    ```python
    start = 0
    while start < len(text):
        chunked_docs.append(Document(page_content=text[start : start + chunk_size]))
        start += chunk_size - chunk_overlap
    ```

    The guard also requires `chunk_overlap < chunk_size`; with
    `chunk_overlap ≥ chunk_size` the Python loop would never terminate,
    and the source only ever instantiates the defaults `1000`/`100`.
    The recursion is fueled so that it is kernel-computable; each
    iteration requires `start < text.length` and advances `start` by at
    least one, so fuel `text.length + 1` is never exhausted before the
    loop guard fails. -/
def late_chunk_aux (text : PyStr) (chunk_size chunk_overlap : Nat) :
    Nat → Nat → List PyStr
  | _, 0 => []
  | start, fuel + 1 =>
    if start < text.length ∧ chunk_overlap < chunk_size then
      ((text.drop start).take chunk_size) ::
        late_chunk_aux text chunk_size chunk_overlap
          (start + (chunk_size - chunk_overlap)) fuel
    else []

/-- The `while` loop of `get_late_chunked_text` run from index `start`. -/
def late_chunk_from (text : PyStr) (chunk_size chunk_overlap : Nat) (start : Nat) :
    List PyStr :=
  late_chunk_aux text chunk_size chunk_overlap start (text.length + 1)

example : late_chunk_from (pyOfString "abcdefgh") 4 1 0 =
    [pyOfString "abcd", pyOfString "defg", pyOfString "gh"] := by decide

example : clean_text (pyOfString "  hi there ") = pyOfString "hi there" := by decide

example : py_split_ws (pyOfString " one two  three ") =
    [pyOfString "one", pyOfString "two", pyOfString "three"] := by decide

/-- A langchain `Document` (only its `page_content` is ever used here). -/
structure Document where
  page_content : PyStr
  deriving DecidableEq, Repr

/-- A FAISS vector store, abstracted to the one operation the repository
    calls on it: `similarity_search` (which may raise). -/
structure VectorStore where
  similarity_search : PyStr → Except PyStr (List Document)

/-- A Streamlit `UploadedFile`. -/
structure UploadedFile where
  name : PyStr
  data : List Nat
  deriving DecidableEq, Repr

/-- An opened PIL image. -/
structure Img where
  data : List Nat
  deriving DecidableEq, Repr

/-- Oracles for every external library / service / OS facility the code
    calls.  `Except` results model calls that can raise. -/
structure Env where
  /-- `PdfReader(file).pages`, each page's `extract_text()`. -/
  pdf_pages : UploadedFile → List PyStr
  /-- `Presentation(file).slides`, each slide's shape texts. -/
  ppt_slides : UploadedFile → List (List PyStr)
  /-- `pd.read_excel(...)` followed by `df.to_csv(index=False)`. -/
  read_excel : UploadedFile → Except PyStr PyStr
  /-- Writing the uploaded bytes to disk (`open`/`write` may raise). -/
  save_file : UploadedFile → PyStr → Except PyStr Unit
  /-- `os.path.exists`, for files outside the index directory. -/
  path_exists : PyStr → Bool
  /-- `ffmpeg.input(...).output(...).run(...)` (may raise). -/
  ffmpeg_run : PyStr → PyStr → Except PyStr Unit
  /-- `WHISPER_MODEL.transcribe(path)["text"]` (may raise). -/
  whisper : PyStr → Except PyStr PyStr
  /-- `RecursiveCharacterTextSplitter(chunk_size, chunk_overlap,
      separators).split_text(text)`; `none` separators means the library
      defaults. -/
  split_text : Nat → Nat → Option (List PyStr) → PyStr → List PyStr
  /-- `FAISS.from_texts(texts, embedding=embeddings)`.  Modeled total
      (the returned store); in the program this calls the embedding API
      and can raise, so the `try/except` arms reachable only through a
      raise of this call (or of `save_local`) mid-rebuild — notably in
      `process_video` after the content append — are outside the model,
      and no theorem below asserts anything that would depend on the
      absence of that raise. -/
  from_texts : List PyStr → VectorStore
  /-- `FAISS.from_texts(texts, embedding=embeddings, normalize_L2=True)`. -/
  from_texts_norm : List PyStr → VectorStore
  /-- The QA chain of `get_conversational_chain` applied to
      `{"input_documents": docs, "question": q}`. -/
  chain_answer : List Document → PyStr → PyStr
  /-- `cohere_client.generate(...)`: prompt to `generations[0].text`
      (may raise). -/
  cohere_gen : PyStr → Except PyStr PyStr
  /-- `Image.open(uploaded_file)`. -/
  open_image : UploadedFile → Img

/-- The Streamlit session-state fields the program reads and writes. -/
structure SessionState where
  content : PyStr
  vector_store : Option VectorStore
  documents_processed : Bool
  audio_processed : Bool
  video_processed : Bool
  uploaded_image : Option Img

/-- Session state plus the on-disk state: the filesystem directories that
    can hold a saved FAISS index, as a map from path to stored index. -/
structure World where
  session : SessionState
  disk : PyStr → Option VectorStore

/-- The index path every call site uses. -/
def vector_store_index : PyStr := pyOfString "vector_store_index"

/-- `clear_old_index` (app.py lines 98–105): delete the
    `"vector_store_index"` directory if present. -/
def clear_old_index (w : World) : World :=
  { w with disk := fun p => if p = vector_store_index then none else w.disk p }

/-- `os.path.join(UPLOAD_FOLDER, name)` with `UPLOAD_FOLDER = "uploads"`. -/
def upload_folder_path : PyStr := pyOfString "uploads/"

/-- `handle_file_upload` (app.py lines 107–121): `None` for a falsy
    upload, else save the bytes and return the path (saving may raise). -/
def handle_file_upload (env : Env) (uploaded_file : Option UploadedFile) :
    Except PyStr (Option PyStr) :=
  match uploaded_file with
  | none => .ok none
  | some f =>
    let file_path := upload_folder_path ++ f.name
    match env.save_file f file_path with
    | .error e => .error e
    | .ok _ => .ok (some file_path)

/-- `load_excel_and_convert_to_csv` (app.py lines 123–134). -/
def load_excel_and_convert_to_csv (env : Env) (file : UploadedFile) : PyStr :=
  match env.read_excel file with
  | .ok csv => csv
  | .error e => pyOfString "Error: " ++ e

/-- `get_ppt_content` (app.py lines 136–149): concatenate each slide's
    shape texts, then join the slides with newlines. -/
def get_ppt_content (env : Env) (file : UploadedFile) : PyStr :=
  List.intercalate (pyOfString "\n")
    ((env.ppt_slides file).map (fun slide => slide.foldl (· ++ ·) []))

/-- `get_pdf_text` (app.py lines 151–161): concatenate the pages' text. -/
def get_pdf_text (env : Env) (file : UploadedFile) : PyStr :=
  (env.pdf_pages file).foldl (· ++ ·) []

/-- `os.path.splitext(p)[0]`: the path with its final extension removed
    (a dot run at the start of the basename does not begin an extension). -/
def splitext_root (p : PyStr) : PyStr :=
  match (List.findIdxs (fun x => x = 0x2E) p).getLast? with
  | none => p
  | some d =>
    let start : Nat :=
      (((List.findIdxs (fun x => x = 0x2F) p).getLast?).map (· + 1)).getD 0
    if start ≤ d then
      if ((p.drop start).take (d - start)).any (fun x => x ≠ 0x2E) then
        p.take d
      else p
    else p

example : splitext_root (pyOfString "uploads/clip.mp4") = pyOfString "uploads/clip" := by
  decide

example : splitext_root (pyOfString "uploads/.bashrc") = pyOfString "uploads/.bashrc" := by
  decide

/-- `extract_audio` (app.py lines 167–192): bail out if the video file
    does not exist; run ffmpeg to `<root>.wav`; `None` on an ffmpeg
    exception or if the output did not appear. -/
def extract_audio (env : Env) (video_path : PyStr) : Option PyStr :=
  if env.path_exists video_path = false then none
  else
    let audio_output := splitext_root video_path ++ pyOfString ".wav"
    match env.ffmpeg_run video_path audio_output with
    | .error _ => none
    | .ok _ => if env.path_exists audio_output then some audio_output else none

/-- `transcribe_audio` (app.py lines 197–213): `None` for a missing file
    or a Whisper exception, else the transcription text. -/
def transcribe_audio (env : Env) (audio_file_path : PyStr) : Option PyStr :=
  if env.path_exists audio_file_path = false then none
  else
    match env.whisper audio_file_path with
    | .error _ => none
    | .ok t => some t

/-- `get_text_chunks` (app.py lines 332–337): the library splitter with
    chunk size 1000, overlap 100 and default separators. -/
def get_text_chunks (env : Env) (text : PyStr) : List PyStr :=
  env.split_text 1000 100 none text

/-- `get_vector_store` (app.py lines 355–363): clean every chunk, build a
    FAISS store from the cleaned chunks, save it at `vector_store_path`. -/
def get_vector_store (env : Env) (text_chunks : List PyStr)
    (vector_store_path : PyStr) (w : World) : VectorStore × World :=
  let cleaned_chunks := text_chunks.map clean_text
  let vs := env.from_texts cleaned_chunks
  (vs, { w with disk := fun p => if p = vector_store_path then some vs else w.disk p })

/-- `os.path.exists` on an index directory. -/
def os_path_exists_index (w : World) (p : PyStr) : Bool := (w.disk p).isSome

/-- `load_vector_store` (app.py lines 365–373): `None` when the path does
    not exist, else the index `FAISS.load_local` reads from it. -/
def load_vector_store (w : World) (vector_store_path : PyStr) :
    Option VectorStore :=
  if os_path_exists_index w vector_store_path = false then none
  else w.disk vector_store_path

/-- `process_video` (app.py lines 215–266): save the upload, extract
    audio, transcribe; on a truthy transcription append it (plus a
    newline) to the session content, clear the old index and rebuild the
    store from the accumulated content's chunks; `False` on any failure,
    with every exception caught by the surrounding `try`.  Because the
    rebuild oracles (`Env.from_texts`, the `save_local` write) are
    modeled total, the program's `except` arm reachable when the rebuild
    itself raises — after the content was already appended and the index
    cleared — has no counterpart here: the model's `False` results are
    exactly the pre-rebuild failures. -/
def process_video (env : Env) (uploaded_video : Option UploadedFile) (w : World) :
    Bool × World :=
  if uploaded_video.isNone then (false, w)
  else
    match handle_file_upload env uploaded_video with
    | .error _ => (false, w)
    | .ok none => (false, w)
    | .ok (some video_path) =>
      match extract_audio env video_path with
      | none => (false, w)
      | some audio_path =>
        match transcribe_audio env audio_path with
        | none => (false, w)
        | some transcription =>
          if transcription = [] then (false, w)
          else
            let content2 := w.session.content ++ transcription ++ pyOfString "\n"
            let wA := { w with session := { w.session with content := content2 } }
            let wB := clear_old_index wA
            let text_chunks := get_text_chunks env content2
            let r := get_vector_store env text_chunks vector_store_index wB
            (true, { r.2 with session :=
              { r.2.session with vector_store := some r.1, documents_processed := true } })

/-- The separators `process_audio` passes to the splitter. -/
def audio_separators : List PyStr :=
  [pyOfString "\n\n", pyOfString "\n", pyOfString ".", pyOfString "!",
   pyOfString "?", pyOfString ",", pyOfString " "]

/-- `process_audio` (app.py lines 268–326): save the upload, transcribe;
    on a truthy transcription clear the old index, split the
    transcription with chunk size 500 / overlap 50, build a normalized
    FAISS store from those chunks, save it, mark documents processed and
    replace the session content with the transcription; `False` on any
    failure. -/
def process_audio (env : Env) (uploaded_audio : Option UploadedFile) (w : World) :
    Bool × World :=
  if uploaded_audio.isNone then (false, w)
  else
    match handle_file_upload env uploaded_audio with
    | .error _ => (false, w)
    | .ok none => (false, w)
    | .ok (some audio_path) =>
      match transcribe_audio env audio_path with
      | none => (false, w)
      | some transcription =>
        if transcription = [] then (false, w)
        else
          let w1 := clear_old_index w
          let text_chunks := env.split_text 500 50 (some audio_separators) transcription
          let vs := env.from_texts_norm text_chunks
          let w2 := { w1 with
            session := { w1.session with vector_store := some vs },
            disk := fun p => if p = vector_store_index then some vs else w1.disk p }
          (true, { w2 with session :=
            { w2.session with documents_processed := true, content := transcription } })

/-- `get_late_chunked_text` (app.py lines 392–411): clean each retrieved
    document's text and re-chunk it with the sliding-window loop. -/
def get_late_chunked_text (retrieved_docs : List Document)
    (chunk_size chunk_overlap : Nat) : List Document :=
  retrieved_docs.flatMap (fun doc =>
    (late_chunk_from (clean_text doc.page_content) chunk_size chunk_overlap 0).map
      Document.mk)

/-- `retrieve_documents` (app.py lines 413–443): use the session store if
    present, else load from disk (caching a successful load back into the
    session); return the `similarity_search` results, or `[]` when no
    store is available or when anything raises. -/
def retrieve_documents (query : PyStr) (w : World) : List Document × World :=
  let loaded : Option VectorStore × World :=
    match w.session.vector_store with
    | some v => (some v, w)
    | none =>
      match load_vector_store w vector_store_index with
      | some v => (some v, { w with session := { w.session with vector_store := some v } })
      | none => (none, w)
  match loaded.1 with
  | none => ([], loaded.2)
  | some vector_store =>
    match vector_store.similarity_search query with
    | .ok retrieved_docs => (retrieved_docs, loaded.2)
    | .error _ => ([], loaded.2)

/-- The fixed reply of `process_question` for an empty document list. -/
def no_docs_message : PyStr :=
  pyOfString
    "No relevant documents found. Please upload documents first or try a different question."

/-- `process_question` (app.py lines 445–457): the fixed message for an
    empty retrieval, else the QA chain's answer. -/
def process_question (env : Env) (question : PyStr) (retrieved_docs : List Document) :
    PyStr :=
  if retrieved_docs = [] then no_docs_message
  else env.chain_answer retrieved_docs question

/-- The Cohere prompt built by `fetch_related_terms` (f-string with the
    query between single quotes). -/
def cohere_prompt (query : PyStr) : PyStr :=
  pyOfString
      "Provide a list of related search terms (separated by commas) for improving retrieval. Do NOT change the meaning of the query: " ++
    [0x27] ++ query ++ [0x27]

/-- `fetch_related_terms` (app.py lines 463–489): strip the generation,
    split on commas, strip each term, drop empties, rejoin with `", "`;
    the empty string on a Cohere exception. -/
def fetch_related_terms (env : Env) (query : PyStr) : PyStr :=
  match env.cohere_gen (cohere_prompt query) with
  | .error _ => []
  | .ok generated =>
    let related_terms := py_strip generated
    let terms := ((related_terms.splitOn 0x2C).map py_strip).filter (fun t => t ≠ [])
    List.intercalate (pyOfString ", ") terms

/-- `process_input` (app.py lines 491–504): queries of fewer than 15
    whitespace-separated words are expanded with Cohere related terms
    before retrieval; the answer is always generated from the original
    question. -/
def process_input (env : Env) (question : PyStr) (w : World) : PyStr × World :=
  if (py_split_ws question).length < 15 then
    let related_terms := fetch_related_terms env question
    let combined_query :=
      if related_terms ≠ [] then question ++ pyOfString " " ++ related_terms
      else question
    let r := retrieve_documents combined_query w
    (process_question env question r.1, r.2)
  else
    let r := retrieve_documents question w
    (process_question env question r.1, r.2)

/-- The options of the sidebar `st.selectbox("Select file type", ...)`. -/
inductive FileType
  | PDF
  | PPT
  | Excel
  | Image
  | Audio
  | Video
  deriving DecidableEq, Repr

/-- The accumulation loop over `uploaded_files` (app.py lines 729–735):
    only the PDF / PPT / Excel branches append anything. -/
def combine_uploaded (env : Env) (file_type : FileType)
    (uploaded_files : List UploadedFile) : PyStr :=
  uploaded_files.foldl (fun acc file =>
    match file_type with
    | .PDF => acc ++ get_pdf_text env file ++ pyOfString "\n"
    | .PPT => acc ++ get_ppt_content env file ++ pyOfString "\n"
    | .Excel => acc ++ load_excel_and_convert_to_csv env file ++ pyOfString "\n"
    | _ => acc) []

/-- The sidebar upload handling (app.py lines 671–745): the per-kind
    branches (audio and video run their processors once per session and
    record success; an image is opened and stored in the session), then
    the combined PDF/PPT/Excel block, which — when files were uploaded
    and documents are not yet processed — clears the old index,
    concatenates the files' extracted text, stores it as the session
    content and builds a fresh FAISS index from its chunks.
    `uploaded_files` is the multi-file uploader's list (PDF/PPT/Excel
    kinds only in the UI) and `uploaded_single` the single-file uploader
    result (Image/Audio/Video kinds). -/
def sidebar_upload (env : Env) (file_type : FileType)
    (uploaded_files : List UploadedFile) (uploaded_single : Option UploadedFile)
    (w : World) : World :=
  let w1 : World :=
    match file_type, uploaded_single with
    | .Audio, some f =>
      if w.session.audio_processed then w
      else
        let r := process_audio env (some f) w
        if r.1 then
          { r.2 with session := { r.2.session with audio_processed := true } }
        else r.2
    | .Video, some f =>
      if w.session.video_processed then w
      else
        let r := process_video env (some f) w
        if r.1 then
          { r.2 with session := { r.2.session with video_processed := true } }
        else r.2
    | .Image, some f =>
      { w with session := { w.session with uploaded_image := some (env.open_image f) } }
    | _, _ => w
  if file_type ≠ FileType.Image ∧ uploaded_files ≠ [] then
    if w1.session.documents_processed then w1
    else
      let w2 := clear_old_index w1
      let combined_content := combine_uploaded env file_type uploaded_files
      let w3 := { w2 with session := { w2.session with content := combined_content } }
      let text_chunks := get_text_chunks env combined_content
      let r := get_vector_store env text_chunks vector_store_index w3
      { r.2 with session :=
        { r.2.session with vector_store := some r.1, documents_processed := true } }
  else w1

/-! ### Concrete sample values used to evaluate the model on closed inputs -/

/-- A store whose searches always succeed with one fixed document. -/
def sampleStore : VectorStore := ⟨fun _ => .ok [⟨pyOfString "alpha"⟩]⟩

/-- A store whose searches always raise. -/
def failingStore : VectorStore := ⟨fun _ => .error (pyOfString "boom")⟩

/-- A sample uploaded file. -/
def sampleFile : UploadedFile := ⟨pyOfString "doc.pdf", [1, 2, 3]⟩

/-- An environment in which every external call succeeds. -/
def sampleEnv : Env where
  pdf_pages := fun _ => [pyOfString "page one"]
  ppt_slides := fun _ => [[pyOfString "slide"]]
  read_excel := fun _ => .ok (pyOfString "a,b")
  save_file := fun _ _ => .ok ()
  path_exists := fun _ => true
  ffmpeg_run := fun _ _ => .ok ()
  whisper := fun _ => .ok (pyOfString "hello world")
  split_text := fun _ _ _ t => [t]
  from_texts := fun ts => ⟨fun _ => .ok (ts.map Document.mk)⟩
  from_texts_norm := fun ts => ⟨fun _ => .ok (ts.map Document.mk)⟩
  chain_answer := fun _ _ => pyOfString "answer"
  cohere_gen := fun _ => .ok (pyOfString "a, b")
  open_image := fun f => ⟨f.data⟩

/-- An environment in which transcription raises. -/
def whisperFailEnv : Env := { sampleEnv with whisper := fun _ => .error [] }

/-- The initial session state of the script. -/
def emptySession : SessionState :=
  { content := [], vector_store := none, documents_processed := false,
    audio_processed := false, video_processed := false, uploaded_image := none }

/-- Fresh session, empty disk. -/
def sampleWorld : World := { session := emptySession, disk := fun _ => none }

/-- Fresh session, failing store in the session slot. -/
def failingStoreWorld : World :=
  { session := { emptySession with vector_store := some failingStore },
    disk := fun _ => none }

/-- Empty session, a good store saved on disk at the index path. -/
def diskStoreWorld : World :=
  { session := emptySession,
    disk := fun p => if p = vector_store_index then some sampleStore else none }

/-! ### Helper lemmas on Python string primitives -/

lemma dropWhile_head_not (p : Nat → Bool) :
    ∀ (l : PyStr) (c : Nat), (l.dropWhile p).head? = some c → p c = false := by
  intro l
  induction l with
  | nil => intro c h; simp [List.dropWhile] at h
  | cons a t ih =>
    intro c h
    rw [List.dropWhile_cons] at h
    by_cases hp : p a
    · rw [if_pos hp] at h
      exact ih c h
    · rw [if_neg hp] at h
      simp at h
      rw [h] at hp
      simpa using hp

lemma getLast?_of_dropWhile (p : Nat → Bool) :
    ∀ (l : PyStr) (c : Nat), (l.dropWhile p).getLast? = some c → l.getLast? = some c := by
  intro l
  induction l with
  | nil => intro c h; simp [List.dropWhile] at h
  | cons a t ih =>
    intro c h
    rw [List.dropWhile_cons] at h
    by_cases hp : p a
    · rw [if_pos hp] at h
      have ht := ih c h
      cases t with
      | nil => simp at ht
      | cons b u => rw [List.getLast?_cons_cons]; exact ht
    · rw [if_neg hp] at h
      exact h

lemma py_strip_head_not_space (l : PyStr) (c : Nat)
    (h : (py_strip l).head? = some c) : py_isspace c = false := by
  unfold py_strip at h
  rw [List.head?_reverse] at h
  have h2 := getLast?_of_dropWhile py_isspace _ c h
  rw [List.getLast?_reverse] at h2
  exact dropWhile_head_not py_isspace _ c h2

lemma py_strip_getLast_not_space (l : PyStr) (c : Nat)
    (h : (py_strip l).getLast? = some c) : py_isspace c = false := by
  unfold py_strip at h
  rw [List.getLast?_reverse] at h
  exact dropWhile_head_not py_isspace _ c h

lemma mem_of_mem_py_strip {l : PyStr} {c : Nat} (h : c ∈ py_strip l) : c ∈ l := by
  unfold py_strip at h
  rw [List.mem_reverse] at h
  have h2 := (List.dropWhile_sublist py_isspace).subset h
  rw [List.mem_reverse] at h2
  exact (List.dropWhile_sublist py_isspace).subset h2

lemma dropWhile_of_head_not (p : Nat → Bool) (l : PyStr)
    (h : ∀ c, l.head? = some c → p c = false) : l.dropWhile p = l := by
  cases l with
  | nil => rfl
  | cons a t =>
    rw [List.dropWhile_cons, if_neg]
    rw [h a rfl]
    simp

lemma py_strip_of_clean (l : PyStr)
    (h1 : ∀ c, l.head? = some c → py_isspace c = false)
    (h2 : ∀ c, l.getLast? = some c → py_isspace c = false) : py_strip l = l := by
  unfold py_strip
  rw [dropWhile_of_head_not py_isspace l h1]
  rw [dropWhile_of_head_not py_isspace l.reverse (by
    intro c hc
    rw [List.head?_reverse] at hc
    exact h2 c hc)]
  exact List.reverse_reverse l

lemma not_surrogate_of_mem_utf8_replace {l : PyStr} {c : Nat}
    (h : c ∈ utf8_replace l) : (0xD800 ≤ c && c ≤ 0xDFFF) = false := by
  unfold utf8_replace at h
  rw [List.mem_map] at h
  obtain ⟨b, _, hb⟩ := h
  by_cases hs : (0xD800 ≤ b && b ≤ 0xDFFF) = true
  · rw [if_pos hs] at hb
    rw [← hb]
    decide
  · rw [if_neg hs] at hb
    rw [← hb]
    simpa using hs

lemma mem_pre_strip_of_mem_clean_text {s : PyStr} {c : Nat} (h : c ∈ clean_text s) :
    c ∈ remove_astral (utf8_replace s) := by
  unfold clean_text at h
  by_cases hs : s = []
  · rw [if_pos hs] at h
    simp at h
  · rw [if_neg hs] at h
    exact mem_of_mem_py_strip h

lemma clean_text_mem_lt {s : PyStr} {c : Nat} (h : c ∈ clean_text s) : c < 0x10000 := by
  have h2 := mem_pre_strip_of_mem_clean_text h
  unfold remove_astral at h2
  rw [List.mem_filter] at h2
  exact of_decide_eq_true h2.2

lemma clean_text_mem_not_surrogate {s : PyStr} {c : Nat} (h : c ∈ clean_text s) :
    (0xD800 ≤ c && c ≤ 0xDFFF) = false := by
  have h2 := mem_pre_strip_of_mem_clean_text h
  unfold remove_astral at h2
  rw [List.mem_filter] at h2
  exact not_surrogate_of_mem_utf8_replace h2.1

lemma clean_text_head_not_space (s : PyStr) (c : Nat)
    (h : (clean_text s).head? = some c) : py_isspace c = false := by
  unfold clean_text at h
  by_cases hs : s = []
  · rw [if_pos hs] at h
    simp at h
  · rw [if_neg hs] at h
    exact py_strip_head_not_space _ c h

lemma clean_text_getLast_not_space (s : PyStr) (c : Nat)
    (h : (clean_text s).getLast? = some c) : py_isspace c = false := by
  unfold clean_text at h
  by_cases hs : s = []
  · rw [if_pos hs] at h
    simp at h
  · rw [if_neg hs] at h
    exact py_strip_getLast_not_space _ c h

lemma clean_text_of_ne_nil {y : PyStr} (h : y ≠ []) :
    clean_text y = py_strip (remove_astral (utf8_replace y)) := by
  unfold clean_text
  rw [if_neg h]

lemma clean_text_idem (s : PyStr) : clean_text (clean_text s) = clean_text s := by
  by_cases h0 : clean_text s = []
  · rw [h0]
    rfl
  · rw [clean_text_of_ne_nil h0]
    have hrep : utf8_replace (clean_text s) = clean_text s := by
      unfold utf8_replace
      rw [List.map_congr_left (g := fun c => c), List.map_id']
      intro a ha
      rw [if_neg]
      rw [clean_text_mem_not_surrogate ha]
      simp
    rw [hrep]
    have hast : remove_astral (clean_text s) = clean_text s := by
      unfold remove_astral
      rw [List.filter_eq_self]
      intro a ha
      exact decide_eq_true (clean_text_mem_lt ha)
    rw [hast]
    exact py_strip_of_clean _ (clean_text_head_not_space s) (clean_text_getLast_not_space s)

/-- C10: `clean_text` is idempotent and normalizing — its output has no
    code point above U+FFFF and no leading or trailing whitespace, it is
    a fixed point of itself, the empty (falsy) input maps to the empty
    string, and every chunk `get_vector_store` embeds (the
    `clean_text`-image of its input chunks) enjoys the same properties. -/
theorem clean_text_idempotent_normalizing :
    (∀ s c, c ∈ clean_text s → c < 0x10000) ∧
    (∀ s c, (clean_text s).head? = some c → py_isspace c = false) ∧
    (∀ s c, (clean_text s).getLast? = some c → py_isspace c = false) ∧
    (∀ s, clean_text (clean_text s) = clean_text s) ∧
    clean_text ([] : PyStr) = [] ∧
    (∀ env chunks path w,
      (get_vector_store env chunks path w).1 = env.from_texts (chunks.map clean_text) ∧
      ∀ t ∈ chunks.map clean_text,
        (∀ c ∈ t, c < 0x10000) ∧
        (∀ c, t.head? = some c → py_isspace c = false) ∧
        (∀ c, t.getLast? = some c → py_isspace c = false) ∧
        clean_text t = t) := by
  refine ⟨fun s c h => clean_text_mem_lt h, clean_text_head_not_space,
    clean_text_getLast_not_space, clean_text_idem, rfl, ?_⟩
  intro env chunks path w
  refine ⟨rfl, ?_⟩
  intro t ht
  rw [List.mem_map] at ht
  obtain ⟨u, _, hu⟩ := ht
  rw [← hu]
  exact ⟨fun c hc => clean_text_mem_lt hc, clean_text_head_not_space u,
    clean_text_getLast_not_space u, clean_text_idem u⟩

/-- Closed instantiation of the C10 theorem. -/
theorem clean_text_idempotent_normalizing_witness :
    (97 < 0x10000 ∧ py_isspace 97 = false ∧ py_isspace 104 = false) ∧
    clean_text (clean_text (pyOfString "  abc, ok  ")) =
      clean_text (pyOfString "  abc, ok  ") ∧
    clean_text [] = [] ∧
    (get_vector_store sampleEnv [pyOfString " a "] vector_store_index sampleWorld).1 =
      sampleEnv.from_texts ([pyOfString " a "].map clean_text) ∧
    clean_text (clean_text (pyOfString " a ")) = clean_text (pyOfString " a ") := by
  refine ⟨⟨?_, ?_, ?_⟩, ?_, ?_, ?_, ?_⟩
  · exact clean_text_idempotent_normalizing.1 (pyOfString "  abc, ok  ") 97 (by decide)
  · exact clean_text_idempotent_normalizing.2.1 (pyOfString "  abc, ok  ") 97 (by decide)
  · exact clean_text_idempotent_normalizing.2.2.1 (pyOfString " hih ") 104 (by decide)
  · exact clean_text_idempotent_normalizing.2.2.2.1 (pyOfString "  abc, ok  ")
  · exact clean_text_idempotent_normalizing.2.2.2.2.1
  · exact (clean_text_idempotent_normalizing.2.2.2.2.2 sampleEnv [pyOfString " a "]
      vector_store_index sampleWorld).1
  · exact ((clean_text_idempotent_normalizing.2.2.2.2.2 sampleEnv [pyOfString " a "]
      vector_store_index sampleWorld).2 (clean_text (pyOfString " a "))
      (by decide)).2.2.2

/-! ### Helper lemmas on the late-chunking loop -/

lemma late_chunk_aux_congr (text : PyStr) (cs co : Nat) :
    ∀ (f1 f2 start : Nat), text.length - start ≤ f1 → text.length - start ≤ f2 →
      late_chunk_aux text cs co start f1 = late_chunk_aux text cs co start f2 := by
  intro f1
  induction f1 with
  | zero =>
    intro f2 start h1 h2
    cases f2 with
    | zero => rfl
    | succ g =>
      rw [late_chunk_aux, late_chunk_aux, if_neg]
      intro hc
      omega
  | succ g1 ih =>
    intro f2 start h1 h2
    cases f2 with
    | zero =>
      rw [late_chunk_aux, late_chunk_aux, if_neg]
      intro hc
      omega
    | succ g2 =>
      rw [late_chunk_aux, late_chunk_aux]
      by_cases hc : start < text.length ∧ co < cs
      · rw [if_pos hc, if_pos hc]
        rw [ih g2 (start + (cs - co)) (by omega) (by omega)]
      · rw [if_neg hc, if_neg hc]

lemma late_chunk_from_cons (text : PyStr) (cs co start : Nat)
    (h1 : start < text.length) (h2 : co < cs) :
    late_chunk_from text cs co start =
      ((text.drop start).take cs) ::
        late_chunk_from text cs co (start + (cs - co)) := by
  unfold late_chunk_from
  rw [late_chunk_aux, if_pos ⟨h1, h2⟩]
  rw [late_chunk_aux_congr text cs co text.length (text.length + 1) (start + (cs - co))
    (by omega) (by omega)]

lemma late_chunk_from_nil (text : PyStr) (cs co start : Nat)
    (h : ¬(start < text.length ∧ co < cs)) :
    late_chunk_from text cs co start = [] := by
  unfold late_chunk_from
  rw [late_chunk_aux, if_neg h]

/-- Consecutive chunks of the late-chunking loop: each chunk's suffix
    from position `cs - co` is non-empty and reappears as a prefix of
    the next chunk. -/
lemma late_chunk_chain (text : PyStr) (cs co : Nat) (hco : 0 < co) (hlt : co < cs)
    (start : Nat) :
    List.Chain' (fun a b => a.drop (cs - co) ≠ [] ∧ a.drop (cs - co) <+: b)
      (late_chunk_from text cs co start) := by
  by_cases hs : start < text.length
  · rw [late_chunk_from_cons text cs co start hs hlt]
    have hrec := late_chunk_chain text cs co hco hlt (start + (cs - co))
    refine List.chain'_cons'.mpr ⟨?_, hrec⟩
    intro y hy
    by_cases hs2 : start + (cs - co) < text.length
    · rw [late_chunk_from_cons text cs co _ hs2 hlt] at hy
      simp only [List.head?_cons, Option.mem_def, Option.some.injEq] at hy
      have hdt : ((text.drop start).take cs).drop (cs - co) =
          (text.drop (start + (cs - co))).take co := by
        rw [List.drop_take, List.drop_drop]
        congr 1
        omega
      constructor
      · rw [hdt]
        apply List.ne_nil_of_length_pos
        rw [List.length_take, List.length_drop]
        omega
      · rw [hdt, ← hy]
        have htt : (text.drop (start + (cs - co))).take co =
            ((text.drop (start + (cs - co))).take cs).take co := by
          rw [List.take_take]
          congr 1
          omega
        rw [htt]
        exact List.take_prefix co _
    · rw [late_chunk_from_nil text cs co _ (by intro hc; exact hs2 hc.1)] at hy
      simp at hy
  · rw [late_chunk_from_nil text cs co start (by intro hc; exact hs hc.1)]
    exact List.chain'_nil
termination_by text.length - start
decreasing_by
  omega

set_option maxRecDepth 4000 in
/-- C3 (counterexample): on a 950-character text the late-chunking loop
    with chunk size 1000 / overlap 100 produces two chunks, and the first
    (non-last) chunk does NOT share its final 100 characters with the
    next chunk — the second chunk holds only the final 50. -/
theorem late_chunk_final_overlap_counterexample :
    (late_chunk_from (List.replicate 950 97) 1000 100 0).length = 2 ∧
    ¬ (((late_chunk_from (List.replicate 950 97) 1000 100 0).getD 0 []).drop
          (((late_chunk_from (List.replicate 950 97) 1000 100 0).getD 0 []).length - 100) <+:
        (late_chunk_from (List.replicate 950 97) 1000 100 0).getD 1 []) := by
  have h1 : late_chunk_from (List.replicate 950 (97 : Nat)) 1000 100 0 =
      [List.replicate 950 97, List.replicate 50 97] := by
    rw [late_chunk_from_cons (List.replicate 950 97) 1000 100 0
          (by rw [List.length_replicate]; omega) (by omega),
        late_chunk_from_cons (List.replicate 950 97) 1000 100 (0 + (1000 - 100))
          (by rw [List.length_replicate]; omega) (by omega),
        late_chunk_from_nil (List.replicate 950 97) 1000 100 (0 + (1000 - 100) + (1000 - 100))
          (by rw [List.length_replicate]; omega)]
    rw [List.drop_replicate, List.take_replicate, List.drop_replicate, List.take_replicate]
    norm_num
  rw [h1]
  refine ⟨rfl, ?_⟩
  intro hpre
  have hlen := hpre.length_le
  simp only [List.getD_cons_zero, List.getD_cons_succ, List.length_drop,
    List.length_replicate] at hlen
  omega

/-- C3 (amended): `get_text_chunks` configures the library splitter with
    chunk size 1000 and overlap 100; the audio path builds its store from
    the splitter configured with chunk size 500 and overlap 50; and the
    late-chunking loop (chunk size 1000, overlap 100) advances the start
    index by `chunk_size - chunk_overlap`, so every chunk but the last
    shares a non-empty overlap with its successor — namely its suffix
    from position 900, which is its final 100 characters when the chunk
    is full and fewer when the chunk is clipped at the end of the text. -/
theorem chunking_overlap :
    (∀ env text, get_text_chunks env text = env.split_text 1000 100 none text) ∧
    (∀ text, List.Chain'
      (fun a b => a.drop 900 ≠ [] ∧ a.drop 900 <:+ a ∧ a.drop 900 <+: b)
      (late_chunk_from text 1000 100 0)) ∧
    (∀ env uploaded w path t,
      handle_file_upload env uploaded = .ok (some path) →
      transcribe_audio env path = some t → t ≠ [] →
      (process_audio env uploaded w).2.session.vector_store =
        some (env.from_texts_norm (env.split_text 500 50 (some audio_separators) t))) := by
  refine ⟨fun env text => rfl, ?_, ?_⟩
  · intro text
    have h := late_chunk_chain text 1000 100 (by omega) (by omega) 0
    exact h.imp (fun a b hab => ⟨hab.1, List.drop_suffix 900 a, hab.2⟩)
  · intro env uploaded w path t hup htr hne
    cases uploaded with
    | none => simp [handle_file_upload] at hup
    | some f =>
      unfold process_audio
      simp only [Option.isNone_some, Bool.false_eq_true, if_false, hup]
      simp only [htr]
      rw [if_neg hne]

/-- Closed instantiation of the C3 theorem's audio-path conjunct. -/
theorem chunking_overlap_witness :
    handle_file_upload sampleEnv (some sampleFile) =
      .ok (some (pyOfString "uploads/doc.pdf")) ∧
    transcribe_audio sampleEnv (pyOfString "uploads/doc.pdf") =
      some (pyOfString "hello world") ∧
    pyOfString "hello world" ≠ [] ∧
    (process_audio sampleEnv (some sampleFile) sampleWorld).2.session.vector_store =
      some (sampleEnv.from_texts_norm
        (sampleEnv.split_text 500 50 (some audio_separators) (pyOfString "hello world"))) := by
  refine ⟨rfl, rfl, by decide, ?_⟩
  exact chunking_overlap.2.2 sampleEnv (some sampleFile) sampleWorld
    (pyOfString "uploads/doc.pdf") (pyOfString "hello world")
    rfl rfl (by decide)

/-- Fresh session holding a good store in the session slot. -/
def sessionStoreWorld : World :=
  { session := { emptySession with vector_store := some sampleStore },
    disk := fun _ => none }

/-- The `try/except`-wrapped similarity search of `retrieve_documents`:
    the store's results, or `[]` when the search raises. -/
def similarity_result (v : VectorStore) (query : PyStr) : List Document :=
  match v.similarity_search query with
  | .ok docs => docs
  | .error _ => []

/-- C1: `process_input` expands the query exactly when the question has
    fewer than 15 whitespace-separated words — retrieving with the
    question plus a space plus the Cohere related terms when those are
    non-empty, with the question alone otherwise — and in every case
    generates the answer from the original question. -/
theorem process_input_query_expansion (env : Env) (q : PyStr) (w : World) :
    ((py_split_ws q).length < 15 →
      (fetch_related_terms env q = [] →
        process_input env q w =
          (process_question env q (retrieve_documents q w).1,
           (retrieve_documents q w).2)) ∧
      (fetch_related_terms env q ≠ [] →
        process_input env q w =
          (process_question env q
            (retrieve_documents (q ++ pyOfString " " ++ fetch_related_terms env q) w).1,
           (retrieve_documents (q ++ pyOfString " " ++ fetch_related_terms env q) w).2))) ∧
    (15 ≤ (py_split_ws q).length →
      process_input env q w =
        (process_question env q (retrieve_documents q w).1,
         (retrieve_documents q w).2)) := by
  constructor
  · intro hshort
    constructor
    · intro hrel
      unfold process_input
      rw [if_pos hshort, hrel]
      simp
    · intro hrel
      unfold process_input
      rw [if_pos hshort]
      simp only [if_pos hrel]
  · intro hlong
    unfold process_input
    rw [if_neg (by omega)]

/-- Closed instantiation of the C1 theorem (short question, non-empty
    related terms). -/
theorem process_input_query_expansion_witness :
    (py_split_ws (pyOfString "what is RAG")).length < 15 ∧
    fetch_related_terms sampleEnv (pyOfString "what is RAG") ≠ [] ∧
    process_input sampleEnv (pyOfString "what is RAG") sampleWorld =
      (process_question sampleEnv (pyOfString "what is RAG")
        (retrieve_documents (pyOfString "what is RAG" ++ pyOfString " " ++
          fetch_related_terms sampleEnv (pyOfString "what is RAG")) sampleWorld).1,
       (retrieve_documents (pyOfString "what is RAG" ++ pyOfString " " ++
          fetch_related_terms sampleEnv (pyOfString "what is RAG")) sampleWorld).2) := by
  refine ⟨by decide, by decide, ?_⟩
  exact ((process_input_query_expansion sampleEnv (pyOfString "what is RAG")
    sampleWorld).1 (by decide)).2 (by decide)

/-- C2: with no session store and no on-disk index, retrieval returns
    `[]`; `process_question` on an empty document list returns the fixed
    message whatever the chain does (so the chain is never consulted);
    and a raising similarity search likewise yields `[]`. -/
theorem retrieval_then_generation_errors :
    (∀ q w, w.session.vector_store = none → w.disk vector_store_index = none →
      retrieve_documents q w = ([], w)) ∧
    (∀ env q, process_question env q [] = no_docs_message) ∧
    (∀ q w v e, w.session.vector_store = some v →
      v.similarity_search q = .error e → (retrieve_documents q w).1 = []) ∧
    (∀ q w v e, w.session.vector_store = none →
      w.disk vector_store_index = some v →
      v.similarity_search q = .error e → (retrieve_documents q w).1 = []) := by
  refine ⟨?_, fun env q => rfl, ?_, ?_⟩
  · intro q w h1 h2
    simp [retrieve_documents, load_vector_store, os_path_exists_index, h1, h2]
  · intro q w v e h1 h2
    simp [retrieve_documents, h1, h2]
  · intro q w v e h1 h2 h3
    simp [retrieve_documents, load_vector_store, os_path_exists_index, h1, h2, h3]

/-- Closed instantiation of the C2 theorem. -/
theorem retrieval_then_generation_errors_witness :
    retrieve_documents (pyOfString "query") sampleWorld = ([], sampleWorld) ∧
    process_question sampleEnv (pyOfString "query") [] = no_docs_message ∧
    (retrieve_documents (pyOfString "query") failingStoreWorld).1 = [] := by
  refine ⟨?_, ?_, ?_⟩
  · exact retrieval_then_generation_errors.1 (pyOfString "query") sampleWorld rfl rfl
  · exact retrieval_then_generation_errors.2.1 sampleEnv (pyOfString "query")
  · exact retrieval_then_generation_errors.2.2.1 (pyOfString "query") failingStoreWorld
      failingStore (pyOfString "boom") rfl rfl

/-- C6: retrieval prefers the session store and leaves the world
    untouched when one is present; otherwise a successful disk load is
    used and cached back into the session; and `load_vector_store`
    returns `none` exactly when the path does not exist on disk. -/
theorem index_loading_fallback :
    (∀ w p, load_vector_store w p = none ↔ w.disk p = none) ∧
    (∀ q w v, w.session.vector_store = some v →
      retrieve_documents q w = (similarity_result v q, w)) ∧
    (∀ q w v, w.session.vector_store = none →
      load_vector_store w vector_store_index = some v →
      retrieve_documents q w =
        (similarity_result v q,
         { w with session := { w.session with vector_store := some v } })) := by
  refine ⟨?_, ?_, ?_⟩
  · intro w p
    unfold load_vector_store os_path_exists_index
    cases h : w.disk p <;> simp [h]
  · intro q w v h
    cases hs : v.similarity_search q <;>
      simp [retrieve_documents, similarity_result, h, hs]
  · intro q w v h1 h2
    cases hs : v.similarity_search q <;>
      simp [retrieve_documents, similarity_result, h1, h2, hs]

/-- Closed instantiation of the C6 theorem. -/
theorem index_loading_fallback_witness :
    load_vector_store sampleWorld vector_store_index = none ∧
    retrieve_documents (pyOfString "query") sessionStoreWorld =
      (similarity_result sampleStore (pyOfString "query"), sessionStoreWorld) ∧
    retrieve_documents (pyOfString "query") diskStoreWorld =
      (similarity_result sampleStore (pyOfString "query"),
       { diskStoreWorld with session :=
          { diskStoreWorld.session with vector_store := some sampleStore } }) := by
  refine ⟨?_, ?_, ?_⟩
  · exact (index_loading_fallback.1 sampleWorld vector_store_index).mpr rfl
  · exact index_loading_fallback.2.1 (pyOfString "query") sessionStoreWorld
      sampleStore rfl
  · exact index_loading_fallback.2.2 (pyOfString "query") diskStoreWorld
      sampleStore rfl rfl

/-- Specification-side retrieval, following the spec's words: the
    documents produced for a query are exactly the vector store's
    `similarity_search` output, untouched. -/
def retrieve_documents_spec (v : VectorStore) (query : PyStr) :
    Except PyStr (List Document) :=
  v.similarity_search query

/-- C7: whichever store is used (session or freshly loaded), a
    successful `similarity_search` is returned verbatim — same elements,
    same order, nothing added, removed, filtered or reordered. -/
theorem retrieval_no_reranking :
    (∀ q w v docs, w.session.vector_store = some v →
      retrieve_documents_spec v q = .ok docs → (retrieve_documents q w).1 = docs) ∧
    (∀ q w v docs, w.session.vector_store = none →
      load_vector_store w vector_store_index = some v →
      retrieve_documents_spec v q = .ok docs → (retrieve_documents q w).1 = docs) := by
  constructor
  · intro q w v docs h1 h2
    unfold retrieve_documents_spec at h2
    simp [retrieve_documents, h1, h2]
  · intro q w v docs h1 h2 h3
    unfold retrieve_documents_spec at h3
    simp [retrieve_documents, h1, h2, h3]

/-- Closed instantiation of the C7 theorem. -/
theorem retrieval_no_reranking_witness :
    retrieve_documents_spec sampleStore (pyOfString "query") =
      .ok [⟨pyOfString "alpha"⟩] ∧
    (retrieve_documents (pyOfString "query") sessionStoreWorld).1 =
      [⟨pyOfString "alpha"⟩] ∧
    (retrieve_documents (pyOfString "query") diskStoreWorld).1 =
      [⟨pyOfString "alpha"⟩] := by
  refine ⟨rfl, ?_, ?_⟩
  · exact retrieval_no_reranking.1 (pyOfString "query") sessionStoreWorld
      sampleStore [⟨pyOfString "alpha"⟩] rfl rfl
  · exact retrieval_no_reranking.2 (pyOfString "query") diskStoreWorld
      sampleStore [⟨pyOfString "alpha"⟩] rfl rfl rfl

/-- C8: `process_video` returns `True` only when saving the upload,
    extracting the audio and transcribing it all succeed with a
    non-empty transcription (necessity — in the program even more must
    go right, since the index rebuild itself can still raise); and each
    of the claim's enumerated failures — falsy upload, failed save,
    missing or failed audio extraction, empty or failed transcription —
    yields `False` with the whole state unchanged, these failures all
    occurring before the content append and the index clear-and-rebuild.
    The raising of a total-typed oracle (`FAISS.from_texts` /
    `save_local` mid-rebuild) is outside the model, and no statement
    here depends on its absence: no sufficiency direction and no blanket
    `False → unchanged` is asserted. -/
theorem process_video_failure_handling (env : Env) (f : Option UploadedFile) (w : World) :
    ((process_video env f w).1 = true →
      ∃ video_path audio_path t,
        handle_file_upload env f = .ok (some video_path) ∧
        extract_audio env video_path = some audio_path ∧
        transcribe_audio env audio_path = some t ∧ t ≠ []) ∧
    (∀ e, handle_file_upload env f = .error e →
      process_video env f w = (false, w)) ∧
    (handle_file_upload env f = .ok none →
      process_video env f w = (false, w)) ∧
    (∀ video_path, handle_file_upload env f = .ok (some video_path) →
      extract_audio env video_path = none →
      process_video env f w = (false, w)) ∧
    (∀ video_path audio_path, handle_file_upload env f = .ok (some video_path) →
      extract_audio env video_path = some audio_path →
      transcribe_audio env audio_path = none →
      process_video env f w = (false, w)) ∧
    (∀ video_path audio_path, handle_file_upload env f = .ok (some video_path) →
      extract_audio env video_path = some audio_path →
      transcribe_audio env audio_path = some [] →
      process_video env f w = (false, w)) := by
  cases f with
  | none =>
    refine ⟨?_, ?_, ?_, ?_, ?_, ?_⟩ <;> simp [process_video, handle_file_upload]
  | some file =>
    cases hup : handle_file_upload env (some file) with
    | error e =>
      refine ⟨?_, ?_, ?_, ?_, ?_, ?_⟩ <;> simp [process_video, hup]
    | ok o =>
      cases o with
      | none =>
        refine ⟨?_, ?_, ?_, ?_, ?_, ?_⟩ <;> simp [process_video, hup]
      | some vp =>
        cases hex : extract_audio env vp with
        | none =>
          refine ⟨?_, ?_, ?_, ?_, ?_, ?_⟩ <;> simp [process_video, hup, hex]
        | some ap =>
          cases htr : transcribe_audio env ap with
          | none =>
            refine ⟨?_, ?_, ?_, ?_, ?_, ?_⟩ <;> simp [process_video, hup, hex, htr]
          | some t =>
            by_cases ht : t = []
            · subst ht
              refine ⟨?_, ?_, ?_, ?_, ?_, ?_⟩ <;> simp [process_video, hup, hex, htr]
            · refine ⟨?_, ?_, ?_, ?_, ?_, ?_⟩
              · simp [process_video, hup, hex, htr, ht]
              · simp [process_video, hup]
              · simp [process_video, hup]
              · simp [process_video, hup, hex]
              · intro video_path audio_path h1 hext htn
                injection h1 with h1a
                injection h1a with h1b
                subst h1b
                rw [hex] at hext
                injection hext with hap
                subst hap
                rw [htr] at htn
                exact Option.noConfusion htn
              · intro video_path audio_path h1 hext hte
                injection h1 with h1a
                injection h1a with h1b
                subst h1b
                rw [hex] at hext
                injection hext with hap
                subst hap
                rw [htr] at hte
                injection hte with h2
                exact absurd h2 ht

/-- Closed instantiation of the C8 theorem: a successful run certifies
    that saving, extraction and transcription all succeeded, and a
    failing transcription returns `False` with the world unchanged. -/
theorem process_video_failure_handling_witness :
    (∃ video_path audio_path t,
      handle_file_upload sampleEnv (some sampleFile) = .ok (some video_path) ∧
      extract_audio sampleEnv video_path = some audio_path ∧
      transcribe_audio sampleEnv audio_path = some t ∧ t ≠ []) ∧
    process_video whisperFailEnv (some sampleFile) sampleWorld =
      (false, sampleWorld) := by
  constructor
  · exact (process_video_failure_handling sampleEnv (some sampleFile)
      sampleWorld).1 rfl
  · exact (process_video_failure_handling whisperFailEnv (some sampleFile)
      sampleWorld).2.2.2.2.1 (pyOfString "uploads/doc.pdf")
      (pyOfString "uploads/doc.wav") rfl rfl rfl

/-- Shared computation: a fully successful `process_audio` run. -/
lemma process_audio_success (env : Env) (f : UploadedFile) (w : World)
    (path t : PyStr) (hup : handle_file_upload env (some f) = .ok (some path))
    (htr : transcribe_audio env path = some t) (hne : t ≠ []) :
    (process_audio env (some f) w).1 = true ∧
    (process_audio env (some f) w).2.session.content = t ∧
    (process_audio env (some f) w).2.session.vector_store =
      some (env.from_texts_norm (env.split_text 500 50 (some audio_separators) t)) ∧
    (process_audio env (some f) w).2.session.documents_processed = true ∧
    (process_audio env (some f) w).2.disk vector_store_index =
      some (env.from_texts_norm (env.split_text 500 50 (some audio_separators) t)) := by
  unfold process_audio
  simp only [Option.isNone_some, Bool.false_eq_true, if_false, hup]
  simp only [htr]
  rw [if_neg hne]
  refine ⟨rfl, rfl, rfl, rfl, ?_⟩
  simp

/-- Shared computation: a fully successful `process_video` run. -/
lemma process_video_success (env : Env) (f : UploadedFile) (w : World)
    (path audio_path t : PyStr)
    (hup : handle_file_upload env (some f) = .ok (some path))
    (hex : extract_audio env path = some audio_path)
    (htr : transcribe_audio env audio_path = some t) (hne : t ≠ []) :
    (process_video env (some f) w).1 = true ∧
    (process_video env (some f) w).2.session.content =
      w.session.content ++ t ++ pyOfString "\n" ∧
    (process_video env (some f) w).2.session.vector_store =
      some (env.from_texts
        ((get_text_chunks env (w.session.content ++ t ++ pyOfString "\n")).map
          clean_text)) ∧
    (process_video env (some f) w).2.session.documents_processed = true ∧
    (process_video env (some f) w).2.disk vector_store_index =
      some (env.from_texts
        ((get_text_chunks env (w.session.content ++ t ++ pyOfString "\n")).map
          clean_text)) := by
  unfold process_video
  simp only [Option.isNone_some, Bool.false_eq_true, if_false, hup]
  simp only [hex]
  simp only [htr]
  rw [if_neg hne]
  refine ⟨rfl, rfl, rfl, rfl, ?_⟩
  simp [get_vector_store]

/-- C9: a successful `process_audio` REPLACES the session content with
    the new transcription and rebuilds the index from that transcription's
    chunks alone, while a successful `process_video` APPENDS the
    transcription plus a newline to the prior content and rebuilds the
    index from the accumulated content's chunks. -/
theorem audio_video_content_effects :
    (∀ env f w path t,
      handle_file_upload env (some f) = .ok (some path) →
      transcribe_audio env path = some t → t ≠ [] →
      (process_audio env (some f) w).1 = true ∧
      (process_audio env (some f) w).2.session.content = t ∧
      (process_audio env (some f) w).2.session.vector_store =
        some (env.from_texts_norm (env.split_text 500 50 (some audio_separators) t)) ∧
      (process_audio env (some f) w).2.disk vector_store_index =
        some (env.from_texts_norm (env.split_text 500 50 (some audio_separators) t))) ∧
    (∀ env f w path audio_path t,
      handle_file_upload env (some f) = .ok (some path) →
      extract_audio env path = some audio_path →
      transcribe_audio env audio_path = some t → t ≠ [] →
      (process_video env (some f) w).1 = true ∧
      (process_video env (some f) w).2.session.content =
        w.session.content ++ t ++ pyOfString "\n" ∧
      (process_video env (some f) w).2.session.vector_store =
        some (env.from_texts
          ((get_text_chunks env (w.session.content ++ t ++ pyOfString "\n")).map
            clean_text)) ∧
      (process_video env (some f) w).2.disk vector_store_index =
        some (env.from_texts
          ((get_text_chunks env (w.session.content ++ t ++ pyOfString "\n")).map
            clean_text))) := by
  constructor
  · intro env f w path t hup htr hne
    have h := process_audio_success env f w path t hup htr hne
    exact ⟨h.1, h.2.1, h.2.2.1, h.2.2.2.2⟩
  · intro env f w path audio_path t hup hex htr hne
    have h := process_video_success env f w path audio_path t hup hex htr hne
    exact ⟨h.1, h.2.1, h.2.2.1, h.2.2.2.2⟩

/-- Closed instantiation of the C9 theorem: audio replaces the content,
    video appends to it. -/
theorem audio_video_content_effects_witness :
    (process_audio sampleEnv (some sampleFile) sampleWorld).2.session.content =
      pyOfString "hello world" ∧
    (process_video sampleEnv (some sampleFile) sampleWorld).2.session.content =
      sampleWorld.session.content ++ pyOfString "hello world" ++ pyOfString "\n" := by
  refine ⟨?_, ?_⟩
  · exact (audio_video_content_effects.1 sampleEnv sampleFile sampleWorld
      (pyOfString "uploads/doc.pdf") (pyOfString "hello world")
      rfl rfl (by decide)).2.1
  · exact (audio_video_content_effects.2 sampleEnv sampleFile sampleWorld
      (pyOfString "uploads/doc.pdf") (pyOfString "uploads/doc.wav")
      (pyOfString "hello world") rfl rfl rfl (by decide)).2.1

/-- The extraction the combined upload block performs on one file of a
    document kind (the spec's "each file's extracted text"). -/
def extract_one (env : Env) (file_type : FileType) (f : UploadedFile) : PyStr :=
  match file_type with
  | .PDF => get_pdf_text env f
  | .PPT => get_ppt_content env f
  | .Excel => load_excel_and_convert_to_csv env f
  | _ => []

lemma foldl_append2_join (g1 g2 : UploadedFile → PyStr) :
    ∀ (files : List UploadedFile) (acc : PyStr),
      files.foldl (fun a f => a ++ g1 f ++ g2 f) acc =
        acc ++ (files.map (fun f => g1 f ++ g2 f)).flatten := by
  intro files
  induction files with
  | nil => intro acc; simp
  | cons f fs ih =>
    intro acc
    rw [List.foldl_cons, ih]
    simp [List.append_assoc]

/-- The accumulation loop concatenates, in upload order, each file's
    extracted text followed by a newline. -/
lemma combine_uploaded_eq_join (env : Env) (file_type : FileType)
    (files : List UploadedFile)
    (hft : file_type = FileType.PDF ∨ file_type = FileType.PPT ∨
      file_type = FileType.Excel) :
    combine_uploaded env file_type files =
      (files.map (fun f => extract_one env file_type f ++ pyOfString "\n")).flatten := by
  rcases hft with h | h | h <;> subst h
  · have e := foldl_append2_join (fun f => get_pdf_text env f)
      (fun _ => pyOfString "\n") files []
    simpa [combine_uploaded, extract_one] using e
  · have e := foldl_append2_join (fun f => get_ppt_content env f)
      (fun _ => pyOfString "\n") files []
    simpa [combine_uploaded, extract_one] using e
  · have e := foldl_append2_join (fun f => load_excel_and_convert_to_csv env f)
      (fun _ => pyOfString "\n") files []
    simpa [combine_uploaded, extract_one] using e

/-- Shared computation: the combined document-processing block for a
    non-empty PDF / PPT / Excel batch on an unprocessed session. -/
lemma sidebar_upload_docs_proj (env : Env) (file_type : FileType)
    (files : List UploadedFile) (w : World)
    (hft : file_type = FileType.PDF ∨ file_type = FileType.PPT ∨
      file_type = FileType.Excel)
    (hfiles : files ≠ []) (hproc : w.session.documents_processed = false) :
    (sidebar_upload env file_type files none w).session.content =
      combine_uploaded env file_type files ∧
    (sidebar_upload env file_type files none w).session.vector_store =
      some (env.from_texts
        ((get_text_chunks env (combine_uploaded env file_type files)).map clean_text)) ∧
    (sidebar_upload env file_type files none w).session.documents_processed = true ∧
    (sidebar_upload env file_type files none w).disk vector_store_index =
      some (env.from_texts
        ((get_text_chunks env (combine_uploaded env file_type files)).map clean_text)) := by
  rcases hft with h | h | h <;> subst h <;>
    simp [sidebar_upload, get_vector_store, hfiles, hproc]

/-- C5: for a non-empty batch of PDF / PPT / Excel files on a
    not-yet-processed session, the indexed content is the concatenation,
    in upload order, of each file's extracted text followed by a newline;
    one new FAISS index is built from that content's chunks, it replaces
    whatever was stored at the index path, and the documents-processed
    flag becomes true. -/
theorem batch_upload_processing (env : Env) (file_type : FileType)
    (files : List UploadedFile) (w : World)
    (hft : file_type = FileType.PDF ∨ file_type = FileType.PPT ∨
      file_type = FileType.Excel)
    (hfiles : files ≠ []) (hproc : w.session.documents_processed = false) :
    (sidebar_upload env file_type files none w).session.content =
      (files.map (fun f => extract_one env file_type f ++ pyOfString "\n")).flatten ∧
    (sidebar_upload env file_type files none w).session.vector_store =
      some (env.from_texts
        ((get_text_chunks env (combine_uploaded env file_type files)).map clean_text)) ∧
    (sidebar_upload env file_type files none w).session.documents_processed = true ∧
    (sidebar_upload env file_type files none w).disk vector_store_index =
      some (env.from_texts
        ((get_text_chunks env (combine_uploaded env file_type files)).map clean_text)) := by
  have h := sidebar_upload_docs_proj env file_type files w hft hfiles hproc
  exact ⟨h.1.trans (combine_uploaded_eq_join env file_type files hft),
    h.2.1, h.2.2.1, h.2.2.2⟩

/-- Closed instantiation of the C5 theorem: two PDF files. -/
theorem batch_upload_processing_witness :
    (sidebar_upload sampleEnv FileType.PDF [sampleFile, sampleFile] none
        sampleWorld).session.content =
      ([sampleFile, sampleFile].map
        (fun f => extract_one sampleEnv FileType.PDF f ++ pyOfString "\n")).flatten ∧
    (sidebar_upload sampleEnv FileType.PDF [sampleFile, sampleFile] none
        sampleWorld).session.documents_processed = true ∧
    (sidebar_upload sampleEnv FileType.PDF [sampleFile, sampleFile] none
        sampleWorld).disk vector_store_index =
      some (sampleEnv.from_texts
        ((get_text_chunks sampleEnv
          (combine_uploaded sampleEnv FileType.PDF [sampleFile, sampleFile])).map
            clean_text)) := by
  have h := batch_upload_processing sampleEnv FileType.PDF [sampleFile, sampleFile]
    sampleWorld (Or.inl rfl) (by decide) rfl
  exact ⟨h.1, h.2.2.1, h.2.2.2⟩

/-- C4 (counterexample): an image upload only stores the opened image in
    the session — the session content, the session vector store and the
    on-disk index are all left untouched, so the image kind has no path
    into `st.session_state.content` or the FAISS index. -/
theorem image_upload_not_indexed :
    (sidebar_upload sampleEnv FileType.Image [] (some sampleFile)
        sampleWorld).session.uploaded_image =
      some (sampleEnv.open_image sampleFile) ∧
    (sidebar_upload sampleEnv FileType.Image [] (some sampleFile)
        sampleWorld).session.content = sampleWorld.session.content ∧
    (sidebar_upload sampleEnv FileType.Image [] (some sampleFile)
        sampleWorld).session.vector_store = none ∧
    (sidebar_upload sampleEnv FileType.Image [] (some sampleFile)
        sampleWorld).disk vector_store_index = none :=
  ⟨rfl, rfl, rfl, rfl⟩

/-- C4 (amended): each of the PDF (text), PPT (slides), Excel
    (spreadsheets), audio and video upload paths extracts textual content
    that is stored in the session content and indexed in the FAISS vector
    store; an image upload instead only stores the opened image in the
    session, to be answered directly by the multimodal model, without
    contributing to the session content or the index. -/
theorem upload_kinds :
    (∀ env ft files w,
      (ft = FileType.PDF ∨ ft = FileType.PPT ∨ ft = FileType.Excel) →
      files ≠ [] → w.session.documents_processed = false →
      (sidebar_upload env ft files none w).session.content =
        combine_uploaded env ft files ∧
      (sidebar_upload env ft files none w).session.vector_store =
        some (env.from_texts
          ((get_text_chunks env (combine_uploaded env ft files)).map clean_text))) ∧
    (∀ env f w path t, w.session.audio_processed = false →
      handle_file_upload env (some f) = .ok (some path) →
      transcribe_audio env path = some t → t ≠ [] →
      (sidebar_upload env FileType.Audio [] (some f) w).session.content = t ∧
      (sidebar_upload env FileType.Audio [] (some f) w).session.vector_store =
        some (env.from_texts_norm (env.split_text 500 50 (some audio_separators) t))) ∧
    (∀ env f w path audio_path t, w.session.video_processed = false →
      handle_file_upload env (some f) = .ok (some path) →
      extract_audio env path = some audio_path →
      transcribe_audio env audio_path = some t → t ≠ [] →
      (sidebar_upload env FileType.Video [] (some f) w).session.content =
        w.session.content ++ t ++ pyOfString "\n" ∧
      (sidebar_upload env FileType.Video [] (some f) w).session.vector_store =
        some (env.from_texts
          ((get_text_chunks env (w.session.content ++ t ++ pyOfString "\n")).map
            clean_text))) ∧
    (∀ env f w,
      (sidebar_upload env FileType.Image [] (some f) w).session.uploaded_image =
        some (env.open_image f) ∧
      (sidebar_upload env FileType.Image [] (some f) w).session.content =
        w.session.content ∧
      (sidebar_upload env FileType.Image [] (some f) w).session.vector_store =
        w.session.vector_store ∧
      (sidebar_upload env FileType.Image [] (some f) w).disk = w.disk) := by
  refine ⟨?_, ?_, ?_, ?_⟩
  · intro env ft files w hft hfiles hproc
    have h := sidebar_upload_docs_proj env ft files w hft hfiles hproc
    exact ⟨h.1, h.2.1⟩
  · intro env f w path t haud hup htr hne
    have h := process_audio_success env f w path t hup htr hne
    simp only [sidebar_upload, haud, Bool.false_eq_true, if_false, h.1, if_true]
    exact ⟨h.2.1, h.2.2.1⟩
  · intro env f w path audio_path t hvid hup hex htr hne
    have h := process_video_success env f w path audio_path t hup hex htr hne
    simp only [sidebar_upload, hvid, Bool.false_eq_true, if_false, h.1, if_true]
    exact ⟨h.2.1, h.2.2.1⟩
  · intro env f w
    exact ⟨rfl, rfl, rfl, rfl⟩

/-- Closed instantiation of the C4 theorem across the upload kinds. -/
theorem upload_kinds_witness :
    (sidebar_upload sampleEnv FileType.PPT [sampleFile] none
        sampleWorld).session.content =
      combine_uploaded sampleEnv FileType.PPT [sampleFile] ∧
    (sidebar_upload sampleEnv FileType.Audio [] (some sampleFile)
        sampleWorld).session.content = pyOfString "hello world" ∧
    (sidebar_upload sampleEnv FileType.Video [] (some sampleFile)
        sampleWorld).session.content =
      sampleWorld.session.content ++ pyOfString "hello world" ++ pyOfString "\n" ∧
    (sidebar_upload sampleEnv FileType.Image [] (some sampleFile)
        sampleWorld).session.vector_store = sampleWorld.session.vector_store := by
  refine ⟨?_, ?_, ?_, ?_⟩
  · exact (upload_kinds.1 sampleEnv FileType.PPT [sampleFile] sampleWorld
      (Or.inr (Or.inl rfl)) (by decide) rfl).1
  · exact (upload_kinds.2.1 sampleEnv sampleFile sampleWorld
      (pyOfString "uploads/doc.pdf") (pyOfString "hello world")
      rfl rfl rfl (by decide)).1
  · exact (upload_kinds.2.2.1 sampleEnv sampleFile sampleWorld
      (pyOfString "uploads/doc.pdf") (pyOfString "uploads/doc.wav")
      (pyOfString "hello world") rfl rfl rfl rfl (by decide)).1
  · exact (upload_kinds.2.2.2 sampleEnv sampleFile sampleWorld).2.2.1

end IntelliQuery
